import Mathlib

/-!
# Team signup and invitation handlers (`api/team.go`)

A shallow embedding of the request handlers of `api/team.go` that issue and
validate signed, time-bounded invitation links, together with the properties
of those handlers.

Conventions of the embedding:

* Go's `map[string]string` is an association list (`StringMap`); a missing key
  reads as the empty string, as in Go.
* `int64` values are integers, and `int64` subtraction wraps (`wrapInt64`).
* Everything the handlers call outside `api/team.go` (the `model` and `utils`
  packages, the store, the mailer, the Go string library) is a field of the
  environment `Env W`; operations that touch the outside world take and
  return a world state of type `W`.
* A handler returns its `Outcome`: which `return` statement ended it, the
  final `c.Err`, the log of the outside-world operations it started (store
  calls, provisioning calls, mails, response writes) and the final world.
-/

set_option linter.dupNamespace false
set_option linter.unusedVariables false

namespace Platform

/-- Equality of Go-style results is decidable. -/
instance exceptDecEq {ε α : Type} [DecidableEq ε] [DecidableEq α] : DecidableEq (Except ε α)
  | .ok a, .ok b => if h : a = b then isTrue (by rw [h]) else isFalse (fun h2 => h (Except.ok.inj h2))
  | .error a, .error b =>
    if h : a = b then isTrue (by rw [h]) else isFalse (fun h2 => h (Except.error.inj h2))
  | .ok _, .error _ => isFalse (fun h => Except.noConfusion h)
  | .error _, .ok _ => isFalse (fun h => Except.noConfusion h)

/-! ## Data model -/

/-- Go `map[string]string`, as the list of its entries. -/
structure StringMap where
  entries : List (String × String)
deriving DecidableEq, Repr

/-- Result of `make(map[string]string)`: the empty map. -/
def StringMap.empty : StringMap :=
  { entries := [] }

/-- Map read `m[k]`: the value stored under `k`, or the empty string. -/
def StringMap.get (m : StringMap) (k : String) : String :=
  (m.entries.lookup k).getD ""

/-- Map write `m[k] = v`. -/
def StringMap.set (m : StringMap) (k v : String) : StringMap :=
  { entries := (k, v) :: m.entries.filter (fun kv => kv.1 != k) }

/-- Modelled from the spec: the declaration of `model.AppError` is not among
the sources. An error records where it was raised, its message and its
details, as passed to `model.NewAppError` in `api/team.go`, and a status code
(400 for the user-correctable errors of spec section 7), which is `none`
until a handler assigns one. -/
structure AppError where
  Where : String
  Message : String
  DetailedError : String
  StatusCode : Option Nat
deriving DecidableEq, Repr

/-- Modelled from the spec: the body of `model.NewAppError(where, message,
details)` is not among the sources; it builds the error from its three
arguments. -/
def NewAppError (wher message details : String) : AppError :=
  { Where := wher, Message := message, DetailedError := details, StatusCode := none }

/-- Constant `http.StatusBadRequest`. -/
def StatusBadRequest : Nat := 400

/-- Modelled from the spec: the declaration of `model.Team` is not among the
sources. A team is referenced by id, URL identifier and email (spec section
3); these are the fields `api/team.go` reads or writes. -/
structure Team where
  Id : String
  Name : String
  URLId : String
  Email : String
  AllowValet : Bool
deriving DecidableEq, Repr

/-- Modelled from the spec: the declaration of `model.User` is not among the
sources. A user is referenced by id and email (spec section 3); these are the
fields `api/team.go` reads or writes. -/
structure User where
  Id : String
  TeamId : String
  Username : String
  Password : String
  Email : String
  EmailVerified : Bool
  FullName : String
  Roles : String
deriving DecidableEq, Repr

/-- Modelled from the spec: the declaration of `model.TeamSignup` is not among
the sources. The body of a `create_from_signup` request carries the team and
user to create, the addresses to invite, and the signed token `(Data, Hash)`
of spec section 3. -/
structure TeamSignup where
  Team : Team
  User : User
  Invites : List String
  Data : String
  Hash : String
deriving DecidableEq, Repr

/-- Modelled from the spec: the declaration of `model.Invites` is not among the
sources. The body of an `invite_members` request is a list of string maps,
each read at its `email` key by `api/team.go`. -/
structure Invites where
  Invites : List StringMap
deriving DecidableEq, Repr

/-- Modelled from the spec: the declaration of the session is not among the
sources. A session belongs to a team and a user and carries roles (spec
section 1); these are the fields `api/team.go` reads. -/
structure Session where
  TeamId : String
  UserId : String
  Roles : String
deriving DecidableEq, Repr

/-- Modelled from the spec: the declaration of the request `Context` is not
among the sources. These are the fields `api/team.go` reads or writes: the
error slot `Err`, the two base URLs and the session. -/
structure Context where
  Err : Option AppError
  SiteUrl : String
  TeamUrl : String
  Session : Session
deriving DecidableEq, Repr

/-- Modelled from the spec: the declaration of the server template page is not
among the sources. A page has the name and the URL it was created with and a
property bag that `api/team.go` fills before rendering. -/
structure Page where
  Name : String
  Url : String
  Props : StringMap
deriving DecidableEq, Repr

/-- Modelled from the spec: the body of `NewServerTemplatePage(name, url)` is
not among the sources; it records its two arguments, with no property set. -/
def NewServerTemplatePage (name url : String) : Page :=
  { Name := name, Url := url, Props := StringMap.empty }

/-- Assignment `page.Props[k] = v`. -/
def Page.setProp (p : Page) (k v : String) : Page :=
  { p with Props := p.Props.set k v }

/-- Operations a handler starts on the outside world, with their arguments. -/
inductive Event where
  | teamGet (id : String)
  | userGet (id : String)
  | userGetByEmail (teamId email : String)
  | teamGetByURLId (urlId : String)
  | teamSave (team : Team)
  | createDefaultChannels (teamId : String)
  | createUser (team : Team) (user : User)
  | createValet (team : Team)
  | sendMail (recipient subject body : String)
  | setHeader (key value : String)
  | write (bytes : String)
deriving DecidableEq, Repr

/-- The `return` statement (or the end of the body) at which a handler
stops. -/
inductive Exit where
  | invalidParam
  | teamInvalid
  | userInvalid
  | badSignature
  | expired
  | findFailed
  | urlTaken
  | saveFailed
  | channelsFailed
  | createUserFailed
  | valetFailed
  | modeForbidden
  | mailFailed
  | noInvites
  | teamLookupFailed
  | userLookupFailed
  | alreadyOnTeam
  | panic
  | done
deriving DecidableEq, Repr

/-- The mutable state a handler works on: the error slot `c.Err` of its
context, the log of the operations it has started, and the outside world. -/
structure Run (W : Type) where
  Err : Option AppError
  log : List Event
  world : W

/-- What a handler leaves behind: the final state and the exit taken. -/
structure Outcome (W : Type) extends Run W where
  exit : Exit

/-! ## Go library functions -/

/-- Wrap an integer into the `int64` range (two's complement). -/
def wrapInt64 (x : Int) : Int :=
  (x + 2 ^ 63) % 2 ^ 64 - 2 ^ 63

/-- Why `strconv.ParseInt` failed. -/
inductive NumError where
  | syntaxErr
  | rangeErr
deriving DecidableEq, Repr

/-- Value of a base-10 digit character. -/
def digitVal (c : Char) : Option Nat :=
  if 48 ≤ c.toNat ∧ c.toNat ≤ 57 then some (c.toNat - 48) else none

/-- The scanning loop of `strconv.ParseUint(s, 10, 64)`: `n` is the value read
so far. -/
def parseUintLoop : Nat → List Char → Except NumError Nat
  | n, [] => .ok n
  | n, c :: cs =>
    match digitVal c with
    | none => .error .syntaxErr
    | some d =>
      if n ≥ (2 ^ 64 - 1) / 10 + 1 then .error .rangeErr
      else if n * 10 + d > 2 ^ 64 - 1 then .error .rangeErr
      else parseUintLoop (n * 10 + d) cs

/-- Go `strconv.ParseUint(s, 10, 64)`. -/
def ParseUint (s : List Char) : Except NumError Nat :=
  match s with
  | [] => .error .syntaxErr
  | _ => parseUintLoop 0 s

/-- Go `strconv.ParseInt(s, 10, 64)`: an optional sign, then decimal digits,
and the value must fit in an `int64`. -/
def ParseInt (s : String) : Except NumError Int :=
  match s.data with
  | [] => .error .syntaxErr
  | c :: cs =>
    let neg := c = '-'
    let rest := if c = '+' ∨ c = '-' then cs else c :: cs
    match ParseUint rest with
    | .error e => .error e
    | .ok un =>
      if ¬ neg ∧ un ≥ 2 ^ 63 then .error .rangeErr
      else if neg ∧ un > 2 ^ 63 then .error .rangeErr
      else .ok (if neg then - (un : Int) else (un : Int))

/-- Character of a decimal digit. -/
def digitChar (d : Nat) : Char :=
  Char.ofNat (48 + d)

/-- Decimal digits of `n`, most significant first, in front of `acc`. -/
def natDigits : Nat → Nat → List Char → List Char
  | 0, _, acc => acc
  | fuel + 1, n, acc =>
    if n / 10 = 0 then digitChar (n % 10) :: acc
    else natDigits fuel (n / 10) (digitChar (n % 10) :: acc)

/-- Go `fmt.Sprintf("%v", x)` for an `int64`: the decimal representation. -/
def fmtInt (x : Int) : String :=
  match x with
  | Int.ofNat n => String.mk (natDigits (n + 1) n [])
  | Int.negSucc n => String.mk ('-' :: natDigits (n + 2) (n + 1) [])

/-- Go `len(s)`: the length of a string in bytes. -/
def byteLen (s : String) : Nat :=
  s.utf8ByteSize

/-! ## Environment -/

/-- Everything `api/team.go` calls but does not define. Operations on the
outside world (clock, random ids, store, mailer, provisioning) thread a world
state `W`. Store calls return their completed result: the handler receives it
when it reads the channel. -/
structure Env (W : Type) where
  /-- Setting `utils.Cfg.ServiceSettings.InviteSalt`. -/
  InviteSalt : String
  /-- Setting `utils.Cfg.ServiceSettings.Mode`. -/
  Mode : String
  /-- Constant `utils.MODE_DEV`. -/
  MODE_DEV : String
  /-- Setting `utils.Cfg.TeamSettings.AllowValetDefault`. -/
  AllowValetDefault : Bool
  /-- Setting `utils.Cfg.TeamSettings.TourLink`. -/
  TourLink : String
  /-- Constant `model.ROLE_ADMIN`. -/
  ROLE_ADMIN : String
  /-- Constant `model.ROLE_SYSTEM_ADMIN`. -/
  ROLE_SYSTEM_ADMIN : String
  /-- Go `strings.ToLower`. -/
  ToLower : String → String
  /-- Go `strings.TrimSpace`. -/
  TrimSpace : String → String
  /-- Go `strings.Contains`. -/
  Contains : String → String → Bool
  /-- Go `url.QueryEscape`. -/
  QueryEscape : String → String
  /-- Decoder `model.MapFromJson`. -/
  MapFromJson : String → StringMap
  /-- Encoder `model.MapToJson`. -/
  MapToJson : StringMap → String
  /-- Decoder `model.TeamSignupFromJson`; `none` is the nil result. -/
  TeamSignupFromJson : String → Option TeamSignup
  /-- Encoder `TeamSignup.ToJson`. -/
  TeamSignupToJson : TeamSignup → String
  /-- Decoder `model.TeamFromJson`; `none` is the nil result. -/
  TeamFromJson : String → Option Team
  /-- Encoder `Team.ToJson`. -/
  TeamToJson : Team → String
  /-- Decoder `model.InvitesFromJson`; `none` is the nil result. -/
  InvitesFromJson : String → Option Invites
  /-- Encoder `Invites.ToJson`. -/
  InvitesToJson : Invites → String
  /-- Validation `Team.IsValid`; `none` is the nil error. -/
  TeamIsValid : Team → Option AppError
  /-- Validation `User.IsValid`; `none` is the nil error. -/
  UserIsValid : User → Option AppError
  /-- Check `model.ComparePassword(hash, password)`. -/
  ComparePassword : String → String → Bool
  /-- Check `model.IsReservedURLId`. -/
  IsReservedURLId : String → Bool
  /-- The error `c.SetInvalidParam(where, name)` stores in `c.Err`. -/
  InvalidParam : String → String → AppError
  /-- Rendering `page.Render()`. -/
  Render : Page → String
  /-- Method `Team.PreSave`. -/
  TeamPreSave : Team → W → Team × W
  /-- Method `User.PreSave`. -/
  UserPreSave : User → W → User × W
  /-- Generator `model.NewId`. -/
  NewId : W → String × W
  /-- Clock `model.GetMillis`, an `int64`. -/
  GetMillis : W → Int × W
  /-- Hash `model.HashPassword`. -/
  HashPassword : String → W → String × W
  /-- Store call `Team().Get`. -/
  TeamGet : String → W → Except AppError Team × W
  /-- Store call `Team().GetByURLId`. -/
  TeamGetByURLId : String → W → Except AppError Team × W
  /-- Store call `Team().Save`. -/
  TeamSave : Team → W → Except AppError Team × W
  /-- Store call `User().Get`. -/
  UserGet : String → W → Except AppError User × W
  /-- Store call `User().GetByEmail(teamId, email)`. -/
  UserGetByEmail : String → String → W → Except AppError User × W
  /-- Provisioning `CreateDefaultChannels(c, teamId)`; the returned error. -/
  CreateDefaultChannels : String → W → Option AppError × W
  /-- Provisioning `CreateUser(c, team, user)`: the created user, or the error
  it stores in `c.Err`. -/
  CreateUser : Team → User → W → Except AppError User × W
  /-- Provisioning `CreateValet(c, team)`; the error it stores in `c.Err`, if
  any. -/
  CreateValet : Team → W → Option AppError × W
  /-- Mailer `utils.SendMail(to, subject, body)`; `none` is the nil error. -/
  SendMail : String → String → String → W → Option AppError × W

/-! ## Handlers of `api/team.go` -/

section Handlers

variable {W : Type}

/-- The invitation payload of `signupTeam` (`props`, team.go 54-57). -/
def signupProps (email name : String) (now : Int) : StringMap :=
  ((StringMap.empty.set "email" email).set "name" name).set "time" (fmtInt now)

/-- The signed token of `signupTeam` (team.go 57-60): the encoded payload
`data`, its tag `hash`, and the world after reading the clock and hashing. -/
def signupToken (E : Env W) (email name : String) (w : W) : (String × String) × W :=
  let clock := E.GetMillis w
  let data := E.MapToJson (signupProps email name clock.1)
  let hashed := E.HashPassword (data ++ ":" ++ E.InviteSalt) clock.2
  ((data, hashed.1), hashed.2)

/-- The link of `signupTeam` (team.go 62). -/
def signupLink (E : Env W) (c : Context) (data hash : String) : String :=
  c.SiteUrl ++ "/signup_team_complete/?d=" ++ E.QueryEscape data ++ "&h=" ++ E.QueryEscape hash

/-- Handler `signupTeam` (team.go 34-75). -/
def signupTeam (E : Env W) (c : Context) (body : String) (w : W) : Outcome W :=
  let m := E.MapFromJson body
  let email := E.ToLower (E.TrimSpace (m.get "email"))
  let name := E.TrimSpace (m.get "name")
  if byteLen email = 0 then
    { exit := .invalidParam, Err := some (E.InvalidParam "signupTeam" "email"), log := [], world := w }
  else if byteLen name = 0 then
    { exit := .invalidParam, Err := some (E.InvalidParam "signupTeam" "name"), log := [], world := w }
  else
    let subjectPage := NewServerTemplatePage "signup_team_subject" c.SiteUrl
    let bodyPage := (NewServerTemplatePage "signup_team_body" c.SiteUrl).setProp "TourUrl" E.TourLink
    let token := signupToken E email name w
    let bodyPage := bodyPage.setProp "Link" (signupLink E c token.1.1 token.1.2)
    let sent := E.SendMail email (E.Render subjectPage) (E.Render bodyPage) token.2
    let mail := Event.sendMail email (E.Render subjectPage) (E.Render bodyPage)
    match sent.1 with
    | some err => { exit := .mailFailed, Err := some err, log := [mail], world := sent.2 }
    | none =>
      let m := if E.Mode = E.MODE_DEV then m.set "follow_link" (bodyPage.Props.get "Link") else m
      { exit := .done, Err := c.Err,
        log := [mail, .setHeader "Access-Control-Allow-Origin" " *", .write (E.MapToJson m)],
        world := sent.2 }

/-- Function `FindTeamByURLId` (team.go 225-244). -/
def FindTeamByURLId (E : Env W) (urlId all : String) (st : Run W) : Bool × Run W :=
  if urlId = "" ∨ byteLen urlId > 64 then
    (false, { st with Err := some (E.InvalidParam "findTeamByURLId" "domain") })
  else if E.IsReservedURLId urlId then
    (false, { st with Err := some (NewAppError "findTeamByURLId"
        "This URL is unavailable. Please try another." ("urlid=" ++ urlId)) })
  else
    let result := E.TeamGetByURLId urlId st.world
    match result.1 with
    | .error _ => (false, { st with log := st.log ++ [.teamGetByURLId urlId], world := result.2 })
    | .ok _ => (true, { st with log := st.log ++ [.teamGetByURLId urlId], world := result.2 })

/-- The invitation payload of `InviteMembers` (`props`, team.go 370-375). -/
def inviteProps (team : Team) (invite : String) (now : Int) : StringMap :=
  ((((StringMap.empty.set "email" invite).set "id" team.Id).set "name" team.Name).set
    "urlId" team.URLId).set "time" (fmtInt now)

/-- One iteration of the loop of `InviteMembers` (team.go 342-387). A failed
send is only written to the server log. -/
def inviteOne (E : Env W) (c : Context) (team : Team) (user : User) (invite : String)
    (st : Run W) : Run W :=
  if byteLen invite > 0 then
    let teamUrl := c.TeamUrl
    let sender := if byteLen (E.TrimSpace user.FullName) = 0 then user.Username else user.FullName
    let senderRole :=
      if E.Contains user.Roles E.ROLE_ADMIN || E.Contains user.Roles E.ROLE_SYSTEM_ADMIN
      then "administrator" else "member"
    let subjectPage := ((NewServerTemplatePage "invite_subject" teamUrl).setProp
      "SenderName" sender).setProp "TeamName" team.Name
    let bodyPage := ((((NewServerTemplatePage "invite_body" teamUrl).setProp
      "TeamName" team.Name).setProp "SenderName" sender).setProp
      "SenderStatus" senderRole).setProp "Email" invite
    let clock := E.GetMillis st.world
    let data := E.MapToJson (inviteProps team invite clock.1)
    let hashed := E.HashPassword (data ++ ":" ++ E.InviteSalt) clock.2
    let bodyPage := bodyPage.setProp "Link"
      (teamUrl ++ "/signup_user_complete/?d=" ++ E.QueryEscape data ++ "&h="
        ++ E.QueryEscape hashed.1)
    let sent := E.SendMail invite (E.Render subjectPage) (E.Render bodyPage) hashed.2
    { st with
      log := st.log ++ [.sendMail invite (E.Render subjectPage) (E.Render bodyPage)],
      world := sent.2 }
  else st

/-- Function `InviteMembers` (team.go 340-389). -/
def InviteMembers (E : Env W) (c : Context) (team : Team) (user : User) :
    List String → Run W → Run W
  | [], st => st
  | invite :: rest, st => InviteMembers E c team user rest (inviteOne E c team user invite st)

/-- The team record of a signup request after team.go 86-90: the payload's
email is copied onto it and `Team.PreSave` is applied. -/
def signupTeamPre (E : Env W) (teamSignup : TeamSignup) (w : W) : Team × W :=
  let props := E.MapFromJson teamSignup.Data
  E.TeamPreSave { teamSignup.Team with Email := props.get "email" } w

/-- The user record of a signup request after team.go 88 and 99-100: the
payload's email is copied onto it, `User.PreSave` is applied and a fresh
`TeamId` is assigned. -/
def signupUserPre (E : Env W) (teamSignup : TeamSignup) (w : W) : User × W :=
  let props := E.MapFromJson teamSignup.Data
  let userPre := E.UserPreSave { teamSignup.User with Email := props.get "email" }
    (signupTeamPre E teamSignup w).2
  let newId := E.NewId userPre.2
  ({ userPre.1 with TeamId := newId.1 }, newId.2)

/-- Handler `createTeamFromSignup` (team.go 77-165). -/
def createTeamFromSignup (E : Env W) (c : Context) (body : String) (w : W) : Outcome W :=
  match E.TeamSignupFromJson body with
  | none =>
    { exit := .invalidParam, Err := some (E.InvalidParam "createTeam" "teamSignup"),
      log := [], world := w }
  | some teamSignup =>
    let props := E.MapFromJson teamSignup.Data
    let teamPre := signupTeamPre E teamSignup w
    match E.TeamIsValid teamPre.1 with
    | some err => { exit := .teamInvalid, Err := some err, log := [], world := teamPre.2 }
    | none =>
      let team1 : Team := { teamPre.1 with Id := "" }
      let password := teamSignup.User.Password
      let userPre := signupUserPre E teamSignup w
      match E.UserIsValid userPre.1 with
      | some err => { exit := .userInvalid, Err := some err, log := [], world := userPre.2 }
      | none =>
        let user2 : User := { userPre.1 with Id := "", TeamId := "", Password := password }
        if ! E.ComparePassword teamSignup.Hash (teamSignup.Data ++ ":" ++ E.InviteSalt) then
          { exit := .badSignature,
            Err := some (NewAppError "createTeamFromSignup"
              "The signup link does not appear to be valid" ""),
            log := [], world := userPre.2 }
        else
          match ParseInt (props.get "time") with
          | .error _ =>
            { exit := .expired,
              Err := some (NewAppError "createTeamFromSignup" "The signup link has expired" ""),
              log := [], world := userPre.2 }
          | .ok t =>
            let clock := E.GetMillis userPre.2
            if wrapInt64 (clock.1 - t) > 1000 * 60 * 60 then
              { exit := .expired,
                Err := some (NewAppError "createTeamFromSignup" "The signup link has expired" ""),
                log := [], world := clock.2 }
            else
              let find := FindTeamByURLId E team1.URLId "true"
                { Err := c.Err, log := [], world := clock.2 }
              if find.2.Err ≠ none then { find.2 with exit := .findFailed }
              else if find.1 then
                { find.2 with
                  exit := .urlTaken,
                  Err := some (NewAppError "createTeamFromSignup"
                    "This URL is unavailable. Please try another." ("d=" ++ team1.URLId)) }
              else
                let team2 : Team := { team1 with AllowValet := E.AllowValetDefault }
                let saved := E.TeamSave team2 find.2.world
                let log1 := find.2.log ++ [.teamSave team2]
                match saved.1 with
                | .error err =>
                  { exit := .saveFailed, Err := some err, log := log1, world := saved.2 }
                | .ok rteam =>
                  let channels := E.CreateDefaultChannels rteam.Id saved.2
                  let log2 := log1 ++ [.createDefaultChannels rteam.Id]
                  match channels.1 with
                  | some _ =>
                    { exit := .channelsFailed, Err := none, log := log2, world := channels.2 }
                  | none =>
                    let user3 : User := { user2 with TeamId := rteam.Id, EmailVerified := true }
                    let created := E.CreateUser rteam user3 channels.2
                    let log3 := log2 ++ [.createUser rteam user3]
                    match created.1 with
                    | .error err =>
                      { exit := .createUserFailed, Err := some err, log := log3,
                        world := created.2 }
                    | .ok ruser =>
                      let valet : Run W :=
                        if team2.AllowValet then
                          let made := E.CreateValet rteam created.2
                          { Err := made.1, log := log3 ++ [.createValet rteam], world := made.2 }
                        else { Err := none, log := log3, world := created.2 }
                      if valet.Err ≠ none then { valet with exit := .valetFailed }
                      else
                        let invited := InviteMembers E c rteam ruser teamSignup.Invites valet
                        let reply : TeamSignup :=
                          { teamSignup with Team := rteam, User := ruser }
                        { exit := .done, Err := invited.Err,
                          log := invited.log ++ [.write (E.TeamSignupToJson reply)],
                          world := invited.world }

/-- Handler `createTeam` (team.go 167-201). -/
def createTeam (E : Env W) (c : Context) (body : String) (w : W) : Outcome W :=
  match E.TeamFromJson body with
  | none =>
    { exit := .invalidParam, Err := some (E.InvalidParam "createTeam" "team"),
      log := [], world := w }
  | some team =>
    if E.Mode ≠ E.MODE_DEV then
      { exit := .modeForbidden,
        Err := some (NewAppError "createTeam"
          "The mode does not allow network creation without a valid invite" ""),
        log := [], world := w }
    else
      let saved := E.TeamSave team w
      match saved.1 with
      | .error err =>
        { exit := .saveFailed, Err := some err, log := [.teamSave team], world := saved.2 }
      | .ok rteam =>
        let channels := E.CreateDefaultChannels rteam.Id saved.2
        let log2 := [Event.teamSave team, .createDefaultChannels rteam.Id]
        match channels.1 with
        | some _ => { exit := .channelsFailed, Err := none, log := log2, world := channels.2 }
        | none =>
          let valet : Run W :=
            if rteam.AllowValet then
              let made := E.CreateValet rteam channels.2
              { Err := if made.1 ≠ none then made.1 else c.Err,
                log := log2 ++ [.createValet rteam], world := made.2 }
            else { Err := c.Err, log := log2, world := channels.2 }
          if rteam.AllowValet ∧ valet.Err ≠ none then { valet with exit := .valetFailed }
          else { valet with exit := .done, log := valet.log ++ [.write (E.TeamToJson rteam)] }

/-- The lookup loop of `inviteMembers` (team.go 322-328): the index of the
first invitee whose lookup does not fail with the not-found message, if any. -/
def checkInvitees (E : Env W) (teamId : String) :
    List StringMap → Nat → Run W → Option Nat × Run W
  | [], _, st => (none, st)
  | invite :: rest, i, st =>
    let result := E.UserGetByEmail teamId (invite.get "email") st.world
    let st1 : Run W :=
      { st with log := st.log ++ [.userGetByEmail teamId (invite.get "email")],
                world := result.2 }
    match result.1 with
    | .ok _ => (some i, st1)
    | .error err =>
      if err.Message ≠ "We couldn't find the existing account" then (some i, st1)
      else checkInvitees E teamId rest (i + 1) st1

/-- Handler `inviteMembers` (team.go 294-338). Reading `invites.Invites` of a
nil `invites` is a run-time panic. -/
def inviteMembers (E : Env W) (c : Context) (body : String) (w : W) : Outcome W :=
  match E.InvitesFromJson body with
  | none => { exit := .panic, Err := c.Err, log := [], world := w }
  | some invites =>
    if invites.Invites.length = 0 then
      { exit := .noInvites,
        Err := some { NewAppError "Team.InviteMembers" "No one to invite." "" with
                      StatusCode := some StatusBadRequest },
        log := [], world := w }
    else
      let tchan := E.TeamGet c.Session.TeamId w
      let uchan := E.UserGet c.Session.UserId tchan.2
      let log0 := [Event.teamGet c.Session.TeamId, .userGet c.Session.UserId]
      match tchan.1 with
      | .error err =>
        { exit := .teamLookupFailed, Err := some err, log := log0, world := uchan.2 }
      | .ok team =>
        match uchan.1 with
        | .error err =>
          { exit := .userLookupFailed, Err := some err, log := log0, world := uchan.2 }
        | .ok user =>
          let checked := checkInvitees E c.Session.TeamId invites.Invites 0
            { Err := c.Err, log := log0, world := uchan.2 }
          match checked.1 with
          | some i =>
            { checked.2 with
              exit := .alreadyOnTeam,
              Err := some (NewAppError "invite_members" "This person is already on your team"
                (fmtInt (wrapInt64 (i : Int)))) }
          | none =>
            let ia := List.replicate invites.Invites.length ""
              ++ invites.Invites.map (fun invite => invite.get "email")
            let invited := InviteMembers E c team user ia checked.2
            { exit := .done, Err := invited.Err,
              log := invited.log ++ [.write (E.InvitesToJson invites)],
              world := invited.world }

/-- The recipients of the mails in a log, in order: one entry per `SendMail`
call. -/
def mailRecipients : List Event → List String
  | [] => []
  | .sendMail recipient _ _ :: rest => recipient :: mailRecipients rest
  | _ :: rest => mailRecipients rest

/-- The outcome of an invitee lookup on which the loop of `inviteMembers` goes
on (team.go 323): an error whose message is the not-found message. -/
def lookupMissed (result : Except AppError User) : Bool :=
  match result with
  | .ok _ => false
  | .error err => err.Message = "We couldn't find the existing account"

/-- The results of looking up the invitees one after the other, each lookup
made in the world the previous one left, starting from `w`. -/
def lookupResults (E : Env W) (teamId : String) :
    List StringMap → W → List (Except AppError User)
  | [], _ => []
  | invite :: rest, w =>
    (E.UserGetByEmail teamId (invite.get "email") w).1
      :: lookupResults E teamId rest (E.UserGetByEmail teamId (invite.get "email") w).2

end Handlers

/-! ## A concrete environment

A small, fully executable instance of the environment, used to run the
handlers on concrete requests. Its world is the clock reading in
milliseconds. -/

/-- Split a character list at every occurrence of `sep`. -/
def splitOnChar (sep : Char) : List Char → List (List Char)
  | [] => [[]]
  | c :: cs =>
    if c = sep then [] :: splitOnChar sep cs
    else
      match splitOnChar sep cs with
      | [] => [[c]]
      | x :: xs => (c :: x) :: xs

/-- A line-oriented encoding of a string map: `k=v` entries joined by `;`. -/
def demoEncode (m : StringMap) : String :=
  String.intercalate ";" (m.entries.map (fun kv => kv.1 ++ "=" ++ kv.2))

/-- Decoder for `demoEncode`. -/
def demoDecode (s : String) : StringMap :=
  { entries := (splitOnChar ';' s.data).filterMap (fun field =>
      match splitOnChar '=' field with
      | [k, v] => some (String.mk k, String.mk v)
      | _ => none) }

/-- Lower-casing of ASCII letters, as `strings.ToLower` does on ASCII text. -/
def asciiToLower (s : String) : String :=
  String.mk (s.data.map Char.toLower)

/-- Removal of leading and trailing blanks, as `strings.TrimSpace` does on
text whose only white space is the blank. -/
def asciiTrimSpace (s : String) : String :=
  String.mk ((s.data.dropWhile (fun ch => ch = ' ')).reverse.dropWhile (fun ch => ch = ' ')).reverse

/-- The not-found error of the user store. -/
def userNotFound : AppError :=
  NewAppError "SqlUserStore.GetByEmail" "We couldn't find the existing account" ""

/-- A team as the store returns it. -/
def demoTeam : Team :=
  { Id := "team1", Name := "Acme", URLId := "acme", Email := "a@b.com", AllowValet := false }

/-- A user as the store returns it. -/
def demoUser : User :=
  { Id := "user1", TeamId := "team1", Username := "ann", Password := "", Email := "a@b.com",
    EmailVerified := true, FullName := "Ann", Roles := "" }

/-- The concrete environment: the request decoders are given, records longer than 64 bytes in `Name` are invalid, a tag is valid when it is
`sig:` followed by the signed text, no URL identifier is taken, no invitee
exists yet, and provisioning and mail succeed. -/
def demoEnv (signup : String → Option TeamSignup) (invites : String → Option Invites) :
    Env Int :=
  { InviteSalt := "salt"
    Mode := "dev"
    MODE_DEV := "dev"
    AllowValetDefault := false
    TourLink := "tour"
    ROLE_ADMIN := "admin"
    ROLE_SYSTEM_ADMIN := "system_admin"
    ToLower := asciiToLower
    TrimSpace := asciiTrimSpace
    Contains := fun s sub => s = sub
    QueryEscape := fun s => s
    MapFromJson := demoDecode
    MapToJson := demoEncode
    TeamSignupFromJson := signup
    TeamSignupToJson := fun ts => ts.Data
    TeamFromJson := fun body => (signup body).map (fun ts => ts.Team)
    TeamToJson := fun t => t.URLId
    InvitesFromJson := invites
    InvitesToJson := fun _ => "invites"
    TeamIsValid := fun t =>
      if byteLen t.Name > 64 then some (NewAppError "Team.IsValid" "Invalid name" "") else none
    UserIsValid := fun u =>
      if byteLen u.Username > 64 then some (NewAppError "User.IsValid" "Invalid username" "")
      else none
    ComparePassword := fun hash password => hash = "sig:" ++ password
    IsReservedURLId := fun u => u = "admin"
    InvalidParam := fun wher name =>
      { NewAppError wher ("Invalid " ++ name ++ " parameter") "" with
        StatusCode := some StatusBadRequest }
    Render := fun p => p.Name ++ "/" ++ demoEncode p.Props
    TeamPreSave := fun t w => ({ t with Id := "presave" }, w)
    UserPreSave := fun u w => ({ u with Id := "presave" }, w)
    NewId := fun w => ("newid", w)
    GetMillis := fun w => (w, w)
    HashPassword := fun password w => ("sig:" ++ password, w)
    TeamGet := fun _ w => (.ok demoTeam, w)
    TeamGetByURLId := fun _ w => (.error (NewAppError "SqlTeamStore.GetByURLId" "not found" ""), w)
    TeamSave := fun t w => (.ok { t with Id := "team1" }, w)
    UserGet := fun _ w => (.ok demoUser, w)
    UserGetByEmail := fun _ _ w => (.error userNotFound, w)
    CreateDefaultChannels := fun _ w => (none, w)
    CreateUser := fun _ u w => (.ok { u with Id := "user1" }, w)
    CreateValet := fun _ w => (none, w)
    SendMail := fun _ _ _ w => (none, w) }

/-- A context with no error, as a handler receives it. -/
def demoContext : Context :=
  { Err := none, SiteUrl := "http://site", TeamUrl := "http://site/acme",
    Session := { TeamId := "team1", UserId := "user1", Roles := "" } }

/-- A signup request with the given payload and tag. -/
def demoSignup (data hash : String) : TeamSignup :=
  { Team := { Id := "", Name := "Acme", URLId := "acme", Email := "", AllowValet := false }
    User := { Id := "", TeamId := "", Username := "ann", Password := "pw", Email := "",
              EmailVerified := false, FullName := "Ann", Roles := "" }
    Invites := []
    Data := data
    Hash := hash }

/-- A payload issued at time 1700000000000 for `a@b.com`, in the concrete
encoding. -/
def demoData : String :=
  "time=1700000000000;name=Acme;email=a@b.com"

/-- The tag of `demoData` under the concrete environment's salt. -/
def demoHash : String :=
  "sig:time=1700000000000;name=Acme;email=a@b.com:salt"

/-- The concrete environment serving one signup request, whatever the body. -/
def signupEnv (ts : TeamSignup) : Env Int :=
  demoEnv (fun _ => some ts) (fun _ => none)

/-- The forged request of `demoSignup demoData "sig:forged"` with a team name
of 65 bytes, which `Team.IsValid` rejects. -/
def longNameSignup : TeamSignup :=
  { demoSignup demoData "sig:forged" with
    Team := { Id := "", Name := String.mk (List.replicate 65 'x'), URLId := "acme", Email := "",
              AllowValet := false } }

/-- Decoder for two request bodies that differ only in the team name. -/
def twoSignups (body : String) : Option TeamSignup :=
  if body = "long-name" then some longNameSignup else some (demoSignup demoData "sig:forged")

/-- A correctly signed payload whose `time` is not a number. -/
def badTimeSignup : TeamSignup :=
  demoSignup "time=soon;name=Acme;email=a@b.com" "sig:time=soon;name=Acme;email=a@b.com:salt"

/-- The concrete environment with default-channel provisioning failing. -/
def channelsDownEnv : Env Int :=
  { signupEnv (demoSignup demoData demoHash) with
    CreateDefaultChannels := fun _ w =>
      (some (NewAppError "CreateDefaultChannels" "channel store unavailable" ""), w) }

/-- An invitation request for one address written with capitals and
surrounding blanks. -/
def mixedCaseInvites : Invites :=
  { Invites := [{ entries := [("email", " Bob@Example.COM ")] }] }

/-- The concrete environment serving one invitation request. -/
def inviteEnv (invites : Invites) : Env Int :=
  demoEnv (fun _ => none) (fun _ => some invites)

/-- An error of the team store other than not-found. -/
def teamStoreDown : AppError :=
  NewAppError "SqlTeamStore.Get" "We encountered an error finding the team" ""

/-- The concrete environment serving `mixedCaseInvites` with the team lookup
failing. -/
def teamLookupDownEnv : Env Int :=
  { inviteEnv mixedCaseInvites with TeamGet := fun _ w => (.error teamStoreDown, w) }

/-- An invitation request with three entries, the second without an
`email`. -/
def threeInvites : Invites :=
  { Invites := [{ entries := [("email", "x@y.com")] }, { entries := [("name", "nobody")] },
                { entries := [("email", "z@y.com")] }] }

/-- The concrete environment serving `threeInvites` with every send
failing. -/
def mailDownEnv : Env Int :=
  { inviteEnv threeInvites with
    SendMail := fun _ _ _ w => (some (NewAppError "SendMail" "Failed to send mail" ""), w) }

/-! ## Properties -/

section Properties

set_option maxRecDepth 100000

variable {W : Type}

/-- An `int64` difference that does not overflow is not changed by wrapping. -/
theorem wrapInt64_of_fits (x : Int) (hlo : -(2 ^ 63) ≤ x) (hhi : x < 2 ^ 63) :
    wrapInt64 x = x := by
  unfold wrapInt64
  omega

/-- Reading back a digit character gives the digit. -/
theorem digitVal_digitChar : ∀ d < 10, digitVal (digitChar d) = some d := by
  decide

/-- A digit character is not a sign. -/
theorem digitChar_not_sign : ∀ d < 10, digitChar d ≠ '+' ∧ digitChar d ≠ '-' := by
  decide

/-- Scanning the digits of `n` from zero leaves the scanner at `n`. -/
theorem parseUintLoop_natDigits (fuel : Nat) :
    ∀ (n : Nat) (acc : List Char), n < fuel → n ≤ 2 ^ 64 - 1 →
      parseUintLoop 0 (natDigits fuel n acc) = parseUintLoop n acc := by
  induction fuel with
  | zero => intro n acc h; omega
  | succ fuel ih =>
    intro n acc hfuel hmax
    have hd : digitVal (digitChar (n % 10)) = some (n % 10) :=
      digitVal_digitChar _ (Nat.mod_lt _ (by decide))
    by_cases hsmall : n / 10 = 0
    · have hn : n % 10 = n := by omega
      simp only [natDigits, hsmall, if_true]
      rw [parseUintLoop, hd]
      simp only []
      rw [if_neg (by omega), if_neg (by omega)]
      congr 1
      omega
    · simp only [natDigits, hsmall, if_false]
      rw [ih (n / 10) _ (by omega) (by omega)]
      rw [parseUintLoop, hd]
      simp only []
      rw [if_neg (by omega), if_neg (by omega)]
      congr 1
      omega

/-- The decimal representation starts with a digit. -/
theorem natDigits_head (fuel : Nat) :
    ∀ (n : Nat) (acc : List Char),
      ∃ d tl, d < 10 ∧ natDigits (fuel + 1) n acc = digitChar d :: tl := by
  induction fuel with
  | zero =>
    intro n acc
    refine ⟨n % 10, acc, Nat.mod_lt _ (by decide), ?_⟩
    by_cases hsmall : n / 10 = 0 <;> simp [natDigits, hsmall]
  | succ fuel ih =>
    intro n acc
    by_cases hsmall : n / 10 = 0
    · exact ⟨n % 10, acc, Nat.mod_lt _ (by decide), by simp [natDigits, hsmall]⟩
    · obtain ⟨d, tl, hd, htl⟩ := ih (n / 10) (digitChar (n % 10) :: acc)
      refine ⟨d, tl, hd, ?_⟩
      rw [natDigits, if_neg hsmall, htl]

/-- Parsing the decimal representation of a non-negative `int64` gives it
back: `strconv.ParseInt(fmt.Sprintf("%v", t), 10, 64) = t`. -/
theorem ParseInt_fmtInt (t : Int) (h0 : 0 ≤ t) (hmax : t < 2 ^ 63) :
    ParseInt (fmtInt t) = .ok t := by
  obtain ⟨n, rfl⟩ := Int.eq_ofNat_of_zero_le h0
  have hn : n < 2 ^ 63 := by exact_mod_cast hmax
  obtain ⟨d, tl, hd, htl⟩ := natDigits_head n n []
  have hloop := parseUintLoop_natDigits (n + 1) n [] (by omega) (by omega)
  rw [htl] at hloop
  have hsign := digitChar_not_sign d hd
  have hfmt : (fmtInt (n : Int)).data = digitChar d :: tl := by
    show (String.mk (natDigits (n + 1) n [])).data = _
    rw [htl]
  unfold ParseInt
  rw [hfmt]
  simp only [hsign.1, hsign.2, or_self, if_false, ParseUint, hloop, parseUintLoop]
  simp
  omega

/-- C1. Expiry boundary of `createTeamFromSignup`: when the team and the user
pass validation, the tag verifies and the payload's `time` parses to `t0` with
`0 ≤ t0 ≤ now`, the handler stops at the expiry check exactly when
`now - t0 > 3600000`, and when it stops there it reports "The signup link has
expired" without having started any store operation. -/
theorem createTeamFromSignup_expiry_boundary (E : Env W) (c : Context) (body : String) (w : W)
    (ts : TeamSignup) (t0 now : Int)
    (hparse : E.TeamSignupFromJson body = some ts)
    (hteam : E.TeamIsValid (signupTeamPre E ts w).1 = none)
    (huser : E.UserIsValid (signupUserPre E ts w).1 = none)
    (hsig : E.ComparePassword ts.Hash (ts.Data ++ ":" ++ E.InviteSalt) = true)
    (htime : ParseInt ((E.MapFromJson ts.Data).get "time") = .ok t0)
    (hclock : (E.GetMillis (signupUserPre E ts w).2).1 = now)
    (hint : now < 2 ^ 63) (h0 : 0 ≤ t0) (hle : t0 ≤ now) :
    ((createTeamFromSignup E c body w).exit = .expired ↔ now - t0 > 3600000) ∧
    ((createTeamFromSignup E c body w).exit = .expired →
      (createTeamFromSignup E c body w).Err
          = some (NewAppError "createTeamFromSignup" "The signup link has expired" "") ∧
      (createTeamFromSignup E c body w).log = []) := by
  have hwrap : wrapInt64 (now - t0) = now - t0 :=
    wrapInt64_of_fits _ (by omega) (by omega)
  by_cases hexp : now - t0 > 3600000
  · simp [createTeamFromSignup, hparse, hteam, huser, hsig, htime, hclock, hwrap, hexp]
  · have hnot : ¬ (3600000 < now - t0) := hexp
    have hne : (createTeamFromSignup E c body w).exit ≠ .expired := by
      simp only [createTeamFromSignup, hparse, hteam, huser, hsig, htime, hclock, hwrap]
      norm_num [hnot]
      repeat' split
      all_goals simp
    exact ⟨⟨fun h => absurd h hne, fun h => absurd h hexp⟩, fun h => absurd h hne⟩

/-- Witness for C1: a correctly signed token issued at 1700000000000 and
validated 3600001 ms later in the concrete environment. -/
theorem createTeamFromSignup_expiry_boundary_witness :
    ((createTeamFromSignup (signupEnv (demoSignup demoData demoHash)) demoContext ""
        1700003600001).exit = .expired ↔ (1700003600001 : Int) - 1700000000000 > 3600000) ∧
    ((createTeamFromSignup (signupEnv (demoSignup demoData demoHash)) demoContext ""
        1700003600001).exit = .expired →
      (createTeamFromSignup (signupEnv (demoSignup demoData demoHash)) demoContext ""
        1700003600001).Err
          = some (NewAppError "createTeamFromSignup" "The signup link has expired" "") ∧
      (createTeamFromSignup (signupEnv (demoSignup demoData demoHash)) demoContext ""
        1700003600001).log = []) :=
  createTeamFromSignup_expiry_boundary (signupEnv (demoSignup demoData demoHash)) demoContext ""
    1700003600001 (demoSignup demoData demoHash) 1700000000000 1700003600001
    rfl (by decide) (by decide) (by decide) (by decide) rfl (by decide) (by decide) (by decide)

/-- C2. Forged tag: when the team and the user pass validation and the tag
does not verify, `createTeamFromSignup` stops at the signature check with "The
signup link does not appear to be valid", whatever the payload's `time` is,
and has started no operation at all (no URL-identifier lookup, no team
save). -/
theorem createTeamFromSignup_forged_tag (E : Env W) (c : Context) (body : String) (w : W)
    (ts : TeamSignup)
    (hparse : E.TeamSignupFromJson body = some ts)
    (hteam : E.TeamIsValid (signupTeamPre E ts w).1 = none)
    (huser : E.UserIsValid (signupUserPre E ts w).1 = none)
    (hsig : E.ComparePassword ts.Hash (ts.Data ++ ":" ++ E.InviteSalt) = false) :
    (createTeamFromSignup E c body w).exit = .badSignature ∧
    (createTeamFromSignup E c body w).Err
      = some (NewAppError "createTeamFromSignup"
          "The signup link does not appear to be valid" "") ∧
    (createTeamFromSignup E c body w).log = [] := by
  simp [createTeamFromSignup, hparse, hteam, huser, hsig]

/-- Witness for C2: a two-hour-old payload carrying a tag made with another
secret. -/
theorem createTeamFromSignup_forged_tag_witness :
    (createTeamFromSignup (signupEnv (demoSignup demoData "sig:forged")) demoContext ""
        1700007200000).exit = .badSignature ∧
    (createTeamFromSignup (signupEnv (demoSignup demoData "sig:forged")) demoContext ""
        1700007200000).Err
      = some (NewAppError "createTeamFromSignup"
          "The signup link does not appear to be valid" "") ∧
    (createTeamFromSignup (signupEnv (demoSignup demoData "sig:forged")) demoContext ""
        1700007200000).log = [] :=
  createTeamFromSignup_forged_tag (signupEnv (demoSignup demoData "sig:forged")) demoContext ""
    1700007200000 (demoSignup demoData "sig:forged") rfl (by decide) (by decide) (by decide)

/-- C3, as stated, fails: two requests that differ only in the team name and
both carry a tag that does not verify get different errors, and the request
with the invalid team name gets the validation error, not the
invalid-signature error. -/
theorem createTeamFromSignup_order_counterexample :
    (demoEnv twoSignups (fun _ => none)).ComparePassword longNameSignup.Hash
        (longNameSignup.Data ++ ":" ++ (demoEnv twoSignups (fun _ => none)).InviteSalt) = false ∧
    (createTeamFromSignup (demoEnv twoSignups (fun _ => none)) demoContext "short-name"
        1700000000000).Err
      = some (NewAppError "createTeamFromSignup"
          "The signup link does not appear to be valid" "") ∧
    (createTeamFromSignup (demoEnv twoSignups (fun _ => none)) demoContext "long-name"
        1700000000000).Err
      = some (NewAppError "Team.IsValid" "Invalid name" "") := by
  decide

/-- C3, amended. For every parsed signup request whose tag does not verify,
`createTeamFromSignup` reports the error of the first failing check in the
order team validation, user validation, signature: the `Team.IsValid` error
if there is one, else the `User.IsValid` error if there is one, else the
invalid-signature error. The payload's `time` plays no part, and no
store operation is started. -/
theorem createTeamFromSignup_unverified_tag (E : Env W) (c : Context) (body : String) (w : W)
    (ts : TeamSignup)
    (hparse : E.TeamSignupFromJson body = some ts)
    (hsig : E.ComparePassword ts.Hash (ts.Data ++ ":" ++ E.InviteSalt) = false) :
    (createTeamFromSignup E c body w).Err
      = (match E.TeamIsValid (signupTeamPre E ts w).1 with
        | some err => some err
        | none =>
          match E.UserIsValid (signupUserPre E ts w).1 with
          | some err => some err
          | none => some (NewAppError "createTeamFromSignup"
              "The signup link does not appear to be valid" "")) ∧
    (createTeamFromSignup E c body w).log = [] := by
  simp only [createTeamFromSignup, hparse]
  cases hteam : E.TeamIsValid (signupTeamPre E ts w).1 with
  | some err => simp
  | none =>
    cases huser : E.UserIsValid (signupUserPre E ts w).1 with
    | some err => simp
    | none => simp [hsig]

/-- Witness for C3 (amended): the forged request with the over-long team
name. -/
theorem createTeamFromSignup_unverified_tag_witness :
    (createTeamFromSignup (demoEnv twoSignups (fun _ => none)) demoContext "long-name"
        1700000000000).Err
      = (match (demoEnv twoSignups (fun _ => none)).TeamIsValid
            (signupTeamPre (demoEnv twoSignups (fun _ => none)) longNameSignup 1700000000000).1 with
        | some err => some err
        | none =>
          match (demoEnv twoSignups (fun _ => none)).UserIsValid
            (signupUserPre (demoEnv twoSignups (fun _ => none)) longNameSignup 1700000000000).1 with
          | some err => some err
          | none => some (NewAppError "createTeamFromSignup"
              "The signup link does not appear to be valid" "")) ∧
    (createTeamFromSignup (demoEnv twoSignups (fun _ => none)) demoContext "long-name"
        1700000000000).log = [] :=
  createTeamFromSignup_unverified_tag (demoEnv twoSignups (fun _ => none)) demoContext
    "long-name" 1700000000000 longNameSignup (by decide) (by decide)

/-- C4, as stated, fails: a valid, correctly signed request whose `time` is
not a number is rejected with the expired error itself. -/
theorem createTeamFromSignup_malformed_time_counterexample :
    (signupEnv badTimeSignup).TeamIsValid
        (signupTeamPre (signupEnv badTimeSignup) badTimeSignup 1700000000000).1 = none ∧
    (signupEnv badTimeSignup).UserIsValid
        (signupUserPre (signupEnv badTimeSignup) badTimeSignup 1700000000000).1 = none ∧
    (signupEnv badTimeSignup).ComparePassword badTimeSignup.Hash
        (badTimeSignup.Data ++ ":" ++ (signupEnv badTimeSignup).InviteSalt) = true ∧
    ParseInt (((signupEnv badTimeSignup).MapFromJson badTimeSignup.Data).get "time")
      = .error .syntaxErr ∧
    (createTeamFromSignup (signupEnv badTimeSignup) demoContext "" 1700000000000).Err
      = some (NewAppError "createTeamFromSignup" "The signup link has expired" "") := by
  decide

/-- C4, amended. When the team and the user pass validation and the tag
verifies, a payload whose `time` is missing or does not parse as a base-10
64-bit integer makes `createTeamFromSignup` stop at the expiry check with the
same error as an expired link, "The signup link has expired", before any
store operation. -/
theorem createTeamFromSignup_malformed_time (E : Env W) (c : Context) (body : String) (w : W)
    (ts : TeamSignup)
    (hparse : E.TeamSignupFromJson body = some ts)
    (hteam : E.TeamIsValid (signupTeamPre E ts w).1 = none)
    (huser : E.UserIsValid (signupUserPre E ts w).1 = none)
    (hsig : E.ComparePassword ts.Hash (ts.Data ++ ":" ++ E.InviteSalt) = true)
    (hbad : (E.MapFromJson ts.Data).entries.lookup "time" = none ∨
      ∃ e, ParseInt ((E.MapFromJson ts.Data).get "time") = .error e) :
    (createTeamFromSignup E c body w).exit = .expired ∧
    (createTeamFromSignup E c body w).Err
      = some (NewAppError "createTeamFromSignup" "The signup link has expired" "") ∧
    (createTeamFromSignup E c body w).log = [] := by
  have herr : ∃ e, ParseInt ((E.MapFromJson ts.Data).get "time") = .error e := by
    rcases hbad with hmiss | hbad
    · refine ⟨.syntaxErr, ?_⟩
      simp only [StringMap.get, hmiss]
      decide
    · exact hbad
  obtain ⟨e, he⟩ := herr
  simp [createTeamFromSignup, hparse, hteam, huser, hsig, he]

/-- Witness for C4 (amended): the payload with `time=soon`. -/
theorem createTeamFromSignup_malformed_time_witness :
    (createTeamFromSignup (signupEnv badTimeSignup) demoContext "" 1700000000000).exit
      = .expired ∧
    (createTeamFromSignup (signupEnv badTimeSignup) demoContext "" 1700000000000).Err
      = some (NewAppError "createTeamFromSignup" "The signup link has expired" "") ∧
    (createTeamFromSignup (signupEnv badTimeSignup) demoContext "" 1700000000000).log = [] :=
  createTeamFromSignup_malformed_time (signupEnv badTimeSignup) demoContext "" 1700000000000
    badTimeSignup rfl (by decide) (by decide) (by decide) (Or.inr ⟨.syntaxErr, by decide⟩)

/-- The `email` entry of the signup payload is the address put into it. -/
theorem signupProps_email (email name : String) (now : Int) :
    (signupProps email name now).get "email" = email := by
  simp [signupProps, StringMap.get, StringMap.set, StringMap.empty, List.lookup]

/-- The `time` entry of the signup payload is the decimal issue time. -/
theorem signupProps_time (email name : String) (now : Int) :
    (signupProps email name now).get "time" = fmtInt now := by
  simp [signupProps, StringMap.get, StringMap.set, StringMap.empty, List.lookup]

/-- One loop iteration of `InviteMembers` only adds to the log. -/
theorem inviteOne_log_extends (E : Env W) (c : Context) (team : Team) (user : User)
    (invite : String) (st : Run W) :
    st.log <+: (inviteOne E c team user invite st).log := by
  unfold inviteOne
  split
  · exact List.prefix_append _ _
  · exact List.prefix_refl _

/-- Function `InviteMembers` only adds to the log. -/
theorem InviteMembers_log_extends (E : Env W) (c : Context) (team : Team) (user : User) :
    ∀ (invites : List String) (st : Run W),
      st.log <+: (InviteMembers E c team user invites st).log := by
  intro invites
  induction invites with
  | nil => intro st; exact List.prefix_refl _
  | cons invite rest ih =>
    intro st
    rw [InviteMembers]
    exact (inviteOne_log_extends E c team user invite st).trans (ih _)

/-- C5. Issue/validate round trip. Assume `ComparePassword(HashPassword(m), m)`
holds and `MapFromJson` reads back the payload `MapToJson` encoded. Let
`signupTeam` handle a request with email `e` and name `n` (non-empty once
normalised) at time `t0`: it mails the link `<site>/signup_team_complete/?d=..&h=..`
carrying `data = MapToJson(email, name, time = t0)` and `hash =
HashPassword(data + ":" + InviteSalt)`. When that pair is submitted to
`createTeamFromSignup` with valid team and user fields at a time `now` with
`now - t0 ≤ 3600000`, then:

* the email copied onto the team and onto the user before `PreSave` is
  `lower(trim(e))`;
* the request passes the signature check and the expiry check and goes on to
  the URL-identifier check made on that team: the handler stops there if the
  check sets an error or finds the identifier taken, and otherwise saves that
  team and, once the team is saved and its channels are made, creates that
  user.

Times are non-negative `int64` values. -/
theorem signup_round_trip (E : Env W) (ci : Context) (req : String) (wi : W) (e n : String)
    (c : Context) (body : String) (w : W) (ts : TeamSignup) (t0 now : Int)
    (hcmp : ∀ (m : String) (w1 : W), E.ComparePassword (E.HashPassword m w1).1 m = true)
    (hcodec : ∀ k, (E.MapFromJson (E.MapToJson
        (signupProps (E.ToLower (E.TrimSpace e)) (E.TrimSpace n) t0))).get k
      = (signupProps (E.ToLower (E.TrimSpace e)) (E.TrimSpace n) t0).get k)
    (hreqe : (E.MapFromJson req).get "email" = e)
    (hreqn : (E.MapFromJson req).get "name" = n)
    (hemail : byteLen (E.ToLower (E.TrimSpace e)) ≠ 0)
    (hname : byteLen (E.TrimSpace n) ≠ 0)
    (hissue : (E.GetMillis wi).1 = t0)
    (hparse : E.TeamSignupFromJson body = some ts)
    (hdata : ts.Data
      = E.MapToJson (signupProps (E.ToLower (E.TrimSpace e)) (E.TrimSpace n) t0))
    (hhash : ts.Hash
      = (E.HashPassword (ts.Data ++ ":" ++ E.InviteSalt) (E.GetMillis wi).2).1)
    (hteam : E.TeamIsValid (signupTeamPre E ts w).1 = none)
    (huser : E.UserIsValid (signupUserPre E ts w).1 = none)
    (hclock : (E.GetMillis (signupUserPre E ts w).2).1 = now)
    (ht0 : 0 ≤ t0) (ht0max : t0 < 2 ^ 63) (hnow : 0 ≤ now) (hnowmax : now < 2 ^ 63)
    (hwin : now - t0 ≤ 3600000) :
    (signupTeam E ci req wi).log.head?
      = some (.sendMail (E.ToLower (E.TrimSpace e))
          (E.Render (NewServerTemplatePage "signup_team_subject" ci.SiteUrl))
          (E.Render (((NewServerTemplatePage "signup_team_body" ci.SiteUrl).setProp
            "TourUrl" E.TourLink).setProp "Link"
            (ci.SiteUrl ++ "/signup_team_complete/?d=" ++ E.QueryEscape ts.Data ++ "&h="
              ++ E.QueryEscape ts.Hash)))) ∧
    (E.MapFromJson ts.Data).get "email" = E.ToLower (E.TrimSpace e) ∧
    signupTeamPre E ts w
      = E.TeamPreSave { ts.Team with Email := E.ToLower (E.TrimSpace e) } w ∧
    signupUserPre E ts w
      = ({ (E.UserPreSave { ts.User with Email := E.ToLower (E.TrimSpace e) }
              (E.TeamPreSave { ts.Team with Email := E.ToLower (E.TrimSpace e) } w).2).1 with
            TeamId := (E.NewId (E.UserPreSave { ts.User with Email := E.ToLower (E.TrimSpace e) }
              (E.TeamPreSave { ts.Team with Email := E.ToLower (E.TrimSpace e) } w).2).2).1 },
          (E.NewId (E.UserPreSave { ts.User with Email := E.ToLower (E.TrimSpace e) }
              (E.TeamPreSave { ts.Team with Email := E.ToLower (E.TrimSpace e) } w).2).2).2) ∧
    (createTeamFromSignup E c body w).exit ∉
      [Exit.invalidParam, .teamInvalid, .userInvalid, .badSignature, .expired] ∧
    ((FindTeamByURLId E (signupTeamPre E ts w).1.URLId "true"
          { Err := c.Err, log := [], world := (E.GetMillis (signupUserPre E ts w).2).2 }).2.Err
        ≠ none →
      (createTeamFromSignup E c body w).exit = .findFailed ∧
      (createTeamFromSignup E c body w).toRun
        = (FindTeamByURLId E (signupTeamPre E ts w).1.URLId "true"
            { Err := c.Err, log := [],
              world := (E.GetMillis (signupUserPre E ts w).2).2 }).2) ∧
    ((FindTeamByURLId E (signupTeamPre E ts w).1.URLId "true"
          { Err := c.Err, log := [], world := (E.GetMillis (signupUserPre E ts w).2).2 }).2.Err
        = none →
      (FindTeamByURLId E (signupTeamPre E ts w).1.URLId "true"
          { Err := c.Err, log := [], world := (E.GetMillis (signupUserPre E ts w).2).2 }).1
        = true →
      (createTeamFromSignup E c body w).exit = .urlTaken ∧
      (createTeamFromSignup E c body w).Err
        = some (NewAppError "createTeamFromSignup"
            "This URL is unavailable. Please try another."
            ("d=" ++ (signupTeamPre E ts w).1.URLId)) ∧
      (createTeamFromSignup E c body w).log
        = (FindTeamByURLId E (signupTeamPre E ts w).1.URLId "true"
            { Err := c.Err, log := [],
              world := (E.GetMillis (signupUserPre E ts w).2).2 }).2.log) ∧
    ((FindTeamByURLId E (signupTeamPre E ts w).1.URLId "true"
          { Err := c.Err, log := [], world := (E.GetMillis (signupUserPre E ts w).2).2 }).2.Err
        = none →
      (FindTeamByURLId E (signupTeamPre E ts w).1.URLId "true"
          { Err := c.Err, log := [], world := (E.GetMillis (signupUserPre E ts w).2).2 }).1
        = false →
      ((FindTeamByURLId E (signupTeamPre E ts w).1.URLId "true"
            { Err := c.Err, log := [],
              world := (E.GetMillis (signupUserPre E ts w).2).2 }).2.log
          ++ [.teamSave { (signupTeamPre E ts w).1 with
                Id := "", AllowValet := E.AllowValetDefault }])
        <+: (createTeamFromSignup E c body w).log ∧
      ∀ rteam,
        (E.TeamSave { (signupTeamPre E ts w).1 with
              Id := "", AllowValet := E.AllowValetDefault }
            (FindTeamByURLId E (signupTeamPre E ts w).1.URLId "true"
              { Err := c.Err, log := [],
                world := (E.GetMillis (signupUserPre E ts w).2).2 }).2.world).1 = .ok rteam →
        (E.CreateDefaultChannels rteam.Id
            (E.TeamSave { (signupTeamPre E ts w).1 with
                Id := "", AllowValet := E.AllowValetDefault }
              (FindTeamByURLId E (signupTeamPre E ts w).1.URLId "true"
                { Err := c.Err, log := [],
                  world := (E.GetMillis (signupUserPre E ts w).2).2 }).2.world).2).1 = none →
        Event.createUser rteam
            { (signupUserPre E ts w).1 with
              Id := "", TeamId := rteam.Id, Password := ts.User.Password,
              EmailVerified := true }
          ∈ (createTeamFromSignup E c body w).log) := by
  have hsig : E.ComparePassword ts.Hash (ts.Data ++ ":" ++ E.InviteSalt) = true := by
    rw [hhash]
    exact hcmp _ _
  have hmail : (E.MapFromJson ts.Data).get "email" = E.ToLower (E.TrimSpace e) := by
    rw [hdata, hcodec, signupProps_email]
  have htime : ParseInt ((E.MapFromJson ts.Data).get "time") = .ok t0 := by
    rw [hdata, hcodec, signupProps_time]
    exact ParseInt_fmtInt t0 ht0 ht0max
  have hwrap : wrapInt64 (now - t0) = now - t0 :=
    wrapInt64_of_fits _ (by omega) (by omega)
  have hnot : ¬ (3600000 < now - t0) := by omega
  refine ⟨?_, hmail, ?_, ?_, ?_, ?_, ?_, ?_⟩
  · rw [hhash, hdata, ← hissue]
    simp only [signupTeam, signupToken, signupLink, hreqe, hreqn, if_neg hemail, if_neg hname]
    split <;> simp
  · simp only [signupTeamPre, hmail]
  · simp only [signupUserPre, signupTeamPre, hmail]
  · simp only [createTeamFromSignup, hparse, hteam, huser, hsig, htime, hclock, hwrap]
    norm_num [hnot]
    repeat' split
    all_goals simp
  · intro hfind
    simp only [createTeamFromSignup, hparse, hteam, huser, hsig, htime, hclock, hwrap]
    norm_num [hnot]
    simp [hfind]
  · intro hfind hfound
    simp only [createTeamFromSignup, hparse, hteam, huser, hsig, htime, hclock, hwrap]
    norm_num [hnot]
    simp [hfind, hfound]
  · intro hfind hfound
    simp only [createTeamFromSignup, hparse, hteam, huser, hsig, htime, hclock, hwrap]
    norm_num [hnot]
    simp only [hfind, hfound, if_true, Bool.false_eq_true, if_false]
    refine ⟨?_, ?_⟩
    · repeat' split
      all_goals try simp
      all_goals
        refine List.IsPrefix.trans ?_
          ((InviteMembers_log_extends E c _ _ _ _).trans (List.prefix_append _ _))
        simp
    · intro rteam hsave hchan
      rw [hsave]
      simp only [hchan]
      repeat' split
      all_goals try simp
      all_goals
        refine (InviteMembers_log_extends E c _ _ _ _).subset ?_
        simp

/-- Witness for C5: the request `name= Acme;email= A@B.com ` issued at
1700000000000 and completed one hour later in the concrete environment. The
link is mailed to `a@b.com`, and the completed request saves a team and
creates a user with that email. -/
theorem signup_round_trip_witness :
    (signupTeam (signupEnv (demoSignup demoData demoHash)) demoContext
        "name= Acme;email= A@B.com " 1700000000000).log.head?
      = some (.sendMail "a@b.com" "signup_team_subject/"
          ("signup_team_body/Link=http://site/signup_team_complete/?d="
            ++ "time=1700000000000;name=Acme;email=a@b.com&h="
            ++ "sig:time=1700000000000;name=Acme;email=a@b.com:salt;TourUrl=tour")) ∧
    ((signupEnv (demoSignup demoData demoHash)).MapFromJson demoData).get "email" = "a@b.com" ∧
    (createTeamFromSignup (signupEnv (demoSignup demoData demoHash)) demoContext ""
        1700003600000).exit ∉
      [Exit.invalidParam, .teamInvalid, .userInvalid, .badSignature, .expired] ∧
    [Event.teamGetByURLId "acme",
      .teamSave { Id := "", Name := "Acme", URLId := "acme", Email := "a@b.com",
                  AllowValet := false }]
      <+: (createTeamFromSignup (signupEnv (demoSignup demoData demoHash)) demoContext ""
        1700003600000).log ∧
    Event.createUser
        { Id := "team1", Name := "Acme", URLId := "acme", Email := "a@b.com",
          AllowValet := false }
        { Id := "", TeamId := "team1", Username := "ann", Password := "pw", Email := "a@b.com",
          EmailVerified := true, FullName := "Ann", Roles := "" }
      ∈ (createTeamFromSignup (signupEnv (demoSignup demoData demoHash)) demoContext ""
        1700003600000).log :=
  have h := signup_round_trip (signupEnv (demoSignup demoData demoHash)) demoContext
    "name= Acme;email= A@B.com " 1700000000000 " A@B.com " " Acme" demoContext ""
    1700003600000 (demoSignup demoData demoHash) 1700000000000 1700003600000
    (by intro m w1; simp [signupEnv, demoEnv]) (fun _ => rfl) (by decide) (by decide)
    (by decide) (by decide) rfl rfl (by decide) (by decide) (by decide) (by decide) rfl
    (by decide) (by decide) (by decide) (by decide) (by decide)
  ⟨h.1, h.2.1, h.2.2.2.2.1, (h.2.2.2.2.2.2.2 rfl rfl).1,
    (h.2.2.2.2.2.2.2 rfl rfl).2 _ rfl rfl⟩

/-- C6 fails on the team-join flow: `inviteMembers`, asked to invite
` Bob@Example.COM `, looks up and mails that very string and signs a payload
whose `email` entry is ` Bob@Example.COM `, while the lower-cased, trimmed
address is `bob@example.com`. -/
theorem inviteMembers_email_not_normalised :
    asciiToLower (asciiTrimSpace " Bob@Example.COM ") = "bob@example.com" ∧
    (inviteProps demoTeam " Bob@Example.COM " 1700000000000).get "email"
      = " Bob@Example.COM " ∧
    (inviteMembers (inviteEnv mixedCaseInvites) demoContext "" 1700000000000).log
      = [.teamGet "team1", .userGet "user1",
         .userGetByEmail "team1" " Bob@Example.COM ",
         .sendMail " Bob@Example.COM " "invite_subject/TeamName=Acme;SenderName=Ann"
           ((inviteEnv mixedCaseInvites).Render
             ((((((NewServerTemplatePage "invite_body" "http://site/acme").setProp
               "TeamName" "Acme").setProp "SenderName" "Ann").setProp
               "SenderStatus" "member").setProp "Email" " Bob@Example.COM ").setProp "Link"
               ("http://site/acme/signup_user_complete/?d="
                 ++ demoEncode (inviteProps demoTeam " Bob@Example.COM " 1700000000000)
                 ++ "&h=sig:"
                 ++ demoEncode (inviteProps demoTeam " Bob@Example.COM " 1700000000000)
                 ++ ":salt"))),
         .write "invites"] := by
  decide

/-- C7 fails on the code: with the team saved and `CreateDefaultChannels`
failing, both `createTeamFromSignup` and `createTeam` return with `c.Err`
cleared and nothing written to the response. -/
theorem channels_failure_not_surfaced :
    (createTeamFromSignup channelsDownEnv demoContext "" 1700000000000).exit
      = .channelsFailed ∧
    (createTeamFromSignup channelsDownEnv demoContext "" 1700000000000).Err = none ∧
    (createTeamFromSignup channelsDownEnv demoContext "" 1700000000000).log
      = [.teamGetByURLId "acme",
         .teamSave { Id := "", Name := "Acme", URLId := "acme", Email := "a@b.com",
                     AllowValet := false },
         .createDefaultChannels "team1"] ∧
    (createTeam channelsDownEnv demoContext "" 1700000000000).exit = .channelsFailed ∧
    (createTeam channelsDownEnv demoContext "" 1700000000000).Err = none ∧
    (createTeam channelsDownEnv demoContext "" 1700000000000).log
      = [.teamSave { Id := "", Name := "Acme", URLId := "acme", Email := "",
                     AllowValet := false },
         .createDefaultChannels "team1"] := by
  decide

/-- C8. Store fan-out abort in `inviteMembers`: with a non-empty invite list,
if the team lookup fails the handler stops with the team's error (whatever the
user lookup gave), and if the team lookup succeeds and the user lookup fails
it stops with the user's error. In both cases the only operations started are
the two lookups: no invitee lookup, no mail, no response body. -/
theorem inviteMembers_lookup_failure (E : Env W) (c : Context) (body : String) (w : W)
    (invites : Invites)
    (hparse : E.InvitesFromJson body = some invites)
    (hne : invites.Invites ≠ []) :
    (∀ err, (E.TeamGet c.Session.TeamId w).1 = .error err →
      (inviteMembers E c body w).exit = .teamLookupFailed ∧
      (inviteMembers E c body w).Err = some err ∧
      (inviteMembers E c body w).log
        = [.teamGet c.Session.TeamId, .userGet c.Session.UserId]) ∧
    (∀ team err, (E.TeamGet c.Session.TeamId w).1 = .ok team →
      (E.UserGet c.Session.UserId (E.TeamGet c.Session.TeamId w).2).1 = .error err →
      (inviteMembers E c body w).exit = .userLookupFailed ∧
      (inviteMembers E c body w).Err = some err ∧
      (inviteMembers E c body w).log
        = [.teamGet c.Session.TeamId, .userGet c.Session.UserId]) := by
  have hlen : invites.Invites.length ≠ 0 := by
    intro h
    exact hne (List.length_eq_zero.mp h)
  constructor
  · intro err hteam
    simp [inviteMembers, hparse, hlen, hteam]
  · intro team err hteam huser
    simp [inviteMembers, hparse, hlen, hteam, huser]

/-- Witness for C8: the team lookup fails while the user lookup would
succeed. -/
theorem inviteMembers_lookup_failure_witness :
    (inviteMembers teamLookupDownEnv demoContext "" 1700000000000).exit = .teamLookupFailed ∧
    (inviteMembers teamLookupDownEnv demoContext "" 1700000000000).Err = some teamStoreDown ∧
    (inviteMembers teamLookupDownEnv demoContext "" 1700000000000).log
      = [.teamGet "team1", .userGet "user1"] :=
  (inviteMembers_lookup_failure teamLookupDownEnv demoContext "" 1700000000000
    mixedCaseInvites rfl (by decide)).1 teamStoreDown rfl

/-- C10. Characterisation of `FindTeamByURLId`: it returns true exactly when
the identifier is non-empty, at most 64 bytes long, not reserved, and the
store lookup completes without error. It sets `c.Err` to the invalid-parameter
error in the empty or too-long case and to "This URL is unavailable. Please
try another." in the reserved case, and leaves `c.Err` as it was in every
other case, a failed store lookup included. The argument `all` has no
effect. -/
theorem FindTeamByURLId_spec (E : Env W) (urlId all : String) (st : Run W) :
    ((FindTeamByURLId E urlId all st).1 = true ↔
      urlId ≠ "" ∧ byteLen urlId ≤ 64 ∧ E.IsReservedURLId urlId = false ∧
        ∃ team, (E.TeamGetByURLId urlId st.world).1 = .ok team) ∧
    (urlId = "" ∨ byteLen urlId > 64 →
      (FindTeamByURLId E urlId all st).2.Err
        = some (E.InvalidParam "findTeamByURLId" "domain")) ∧
    (¬ (urlId = "" ∨ byteLen urlId > 64) → E.IsReservedURLId urlId = true →
      (FindTeamByURLId E urlId all st).2.Err
        = some (NewAppError "findTeamByURLId" "This URL is unavailable. Please try another."
            ("urlid=" ++ urlId))) ∧
    (¬ (urlId = "" ∨ byteLen urlId > 64) → E.IsReservedURLId urlId = false →
      (FindTeamByURLId E urlId all st).2.Err = st.Err) ∧
    (∀ all2, FindTeamByURLId E urlId all2 st = FindTeamByURLId E urlId all st) := by
  refine ⟨?_, ?_, ?_, ?_, fun _ => rfl⟩
  · by_cases hlen : urlId = "" ∨ byteLen urlId > 64
    · have hfalse : (FindTeamByURLId E urlId all st).1 = false := by
        simp [FindTeamByURLId, hlen]
      rw [hfalse]
      constructor
      · intro h
        cases h
      · rintro ⟨h1, h2, -, -⟩
        rcases hlen with h | h
        · exact absurd h h1
        · omega
    · have h1 : urlId ≠ "" := fun h => hlen (Or.inl h)
      have h2 : byteLen urlId ≤ 64 := by
        by_contra h
        exact hlen (Or.inr (by omega))
      cases hres : E.IsReservedURLId urlId with
      | true => simp [FindTeamByURLId, hlen, hres]
      | false =>
        cases hget : (E.TeamGetByURLId urlId st.world).1 with
        | error err => simp [FindTeamByURLId, hlen, hres, hget]
        | ok team =>
          have h3 : ¬ 64 < byteLen urlId := by omega
          simp [FindTeamByURLId, hres, hget, h1, h2, h3]
  · intro hlen
    simp [FindTeamByURLId, hlen]
  · intro hlen hres
    simp [FindTeamByURLId, hlen, hres]
  · intro hlen hres
    cases hget : (E.TeamGetByURLId urlId st.world).1 <;>
      simp [FindTeamByURLId, hlen, hres, hget]

/-- Witness for C10: the reserved identifier `admin` in the concrete
environment is refused with the unavailable-URL error, for `all = "true"`. -/
theorem FindTeamByURLId_spec_witness :
    (FindTeamByURLId (inviteEnv mixedCaseInvites) "admin" "true"
        { Err := none, log := [], world := 1700000000000 }).2.Err
      = some (NewAppError "findTeamByURLId" "This URL is unavailable. Please try another."
          "urlid=admin") :=
  (FindTeamByURLId_spec (inviteEnv mixedCaseInvites) "admin" "true"
    { Err := none, log := [], world := 1700000000000 }).2.2.1 (by decide) rfl

/-- A string has zero bytes exactly when it is the empty string. -/
theorem byteLen_eq_zero (s : String) : byteLen s = 0 ↔ s = "" := by
  obtain ⟨data⟩ := s
  cases data with
  | nil => simp [byteLen, String.utf8ByteSize, String.utf8ByteSize.go]
  | cons ch rest =>
    have hpos := Char.utf8Size_pos ch
    constructor
    · intro h
      simp only [byteLen, String.utf8ByteSize, String.utf8ByteSize.go] at h
      omega
    · intro h
      have hdata := congrArg String.data h
      simp at hdata

/-- The recipients of two logs put end to end. -/
theorem mailRecipients_append (l1 l2 : List Event) :
    mailRecipients (l1 ++ l2) = mailRecipients l1 ++ mailRecipients l2 := by
  induction l1 with
  | nil => rfl
  | cons ev rest ih => cases ev <;> simp [mailRecipients, ih]

/-- One loop iteration of `InviteMembers` leaves `c.Err` alone and attempts
one mail, to the invite itself, exactly when the invite is non-empty. -/
theorem inviteOne_effect (E : Env W) (c : Context) (team : Team) (user : User)
    (invite : String) (st : Run W) :
    (inviteOne E c team user invite st).Err = st.Err ∧
    mailRecipients (inviteOne E c team user invite st).log
      = mailRecipients st.log ++ (if invite ≠ "" then [invite] else []) := by
  by_cases hempty : invite = ""
  · subst hempty
    have hzero : byteLen "" = 0 := by decide
    simp [inviteOne, hzero]
  · have hlen : byteLen invite > 0 := by
      have := mt (byteLen_eq_zero invite).mp hempty
      omega
    simp [inviteOne, hlen, hempty, mailRecipients_append, mailRecipients]

/-- Function `InviteMembers` leaves `c.Err` alone and attempts one mail per
non-empty invite, in order, whatever the mailer answers. -/
theorem InviteMembers_effect (E : Env W) (c : Context) (team : Team) (user : User) :
    ∀ (invites : List String) (st : Run W),
      (InviteMembers E c team user invites st).Err = st.Err ∧
      mailRecipients (InviteMembers E c team user invites st).log
        = mailRecipients st.log ++ invites.filter (fun invite => invite ≠ "") := by
  intro invites
  induction invites with
  | nil => intro st; simp [InviteMembers]
  | cons invite rest ih =>
    intro st
    obtain ⟨herr, hlog⟩ := inviteOne_effect E c team user invite st
    obtain ⟨herr2, hlog2⟩ := ih (inviteOne E c team user invite st)
    rw [InviteMembers]
    refine ⟨herr2.trans herr, ?_⟩
    rw [hlog2, hlog]
    by_cases hempty : invite = "" <;> simp [hempty]

/-- The lookup loop of `inviteMembers` runs to its end exactly when every
lookup of the run fails with the not-found message; it then leaves `c.Err`
alone and sends no mail. -/
theorem checkInvitees_none_iff (E : Env W) (teamId : String) :
    ∀ (invites : List StringMap) (i : Nat) (st : Run W),
      ((checkInvitees E teamId invites i st).1 = none ↔
        ∀ result ∈ lookupResults E teamId invites st.world, lookupMissed result = true) ∧
      ((checkInvitees E teamId invites i st).1 = none →
        (checkInvitees E teamId invites i st).2.Err = st.Err ∧
        mailRecipients (checkInvitees E teamId invites i st).2.log
          = mailRecipients st.log) := by
  intro invites
  induction invites with
  | nil => intro i st; simp [checkInvitees, lookupResults]
  | cons invite rest ih =>
    intro i st
    have hrest := ih (i + 1)
      { st with log := st.log ++ [.userGetByEmail teamId (invite.get "email")],
                world := (E.UserGetByEmail teamId (invite.get "email") st.world).2 }
    cases hres : (E.UserGetByEmail teamId (invite.get "email") st.world).1 with
    | ok user => simp [checkInvitees, lookupResults, hres, lookupMissed]
    | error err =>
      by_cases hmsg : err.Message = "We couldn't find the existing account"
      · simp only [checkInvitees, lookupResults, hres, hmsg]
        simpa [mailRecipients_append, mailRecipients, lookupMissed, hmsg] using hrest
      · simp [checkInvitees, lookupResults, hres, lookupMissed, hmsg]

/-- C9. Invite sends are best-effort and complete: in `inviteMembers`, when
the team and user lookups succeed and every invitee lookup of the run fails
with the not-found message, the handler runs to its end, the mails it attempts
are exactly the non-empty `email` values of the request's invites, in request
order, one each (the empty entries in front of the list handed to
`InviteMembers` cause no mail), and `c.Err` is left as it was. The mailer's
answers are arbitrary, so failed sends change none of this. -/
theorem inviteMembers_sends_all (E : Env W) (c : Context) (body : String) (w : W)
    (invites : Invites) (team : Team) (user : User)
    (hparse : E.InvitesFromJson body = some invites)
    (hne : invites.Invites ≠ [])
    (hteam : (E.TeamGet c.Session.TeamId w).1 = .ok team)
    (huser : (E.UserGet c.Session.UserId (E.TeamGet c.Session.TeamId w).2).1 = .ok user)
    (hnotfound : ∀ result ∈ lookupResults E c.Session.TeamId invites.Invites
        (E.UserGet c.Session.UserId (E.TeamGet c.Session.TeamId w).2).2,
      lookupMissed result = true) :
    (inviteMembers E c body w).exit = .done ∧
    mailRecipients (inviteMembers E c body w).log
      = (invites.Invites.map (fun invite => invite.get "email")).filter
          (fun email => email ≠ "") ∧
    (inviteMembers E c body w).Err = c.Err ∧
    (inviteMembers E c body w).log.getLast? = some (.write (E.InvitesToJson invites)) := by
  have hlen : invites.Invites.length ≠ 0 := by
    intro h
    exact hne (List.length_eq_zero.mp h)
  obtain ⟨hiff, hkeep⟩ := checkInvitees_none_iff E c.Session.TeamId invites.Invites 0
    { Err := c.Err,
      log := [Event.teamGet c.Session.TeamId, .userGet c.Session.UserId],
      world := (E.UserGet c.Session.UserId (E.TeamGet c.Session.TeamId w).2).2 }
  have hnone := hiff.mpr hnotfound
  obtain ⟨herr, hlog⟩ := hkeep hnone
  have hblank : (List.replicate invites.Invites.length "").filter (fun invite => invite ≠ "")
      = [] := by
    simp [List.filter_eq_nil_iff, List.mem_replicate]
  simp only [inviteMembers, hparse, hlen, if_false, hteam, huser, hnone]
  obtain ⟨herr2, hlog2⟩ := InviteMembers_effect E c team user
    (List.replicate invites.Invites.length ""
      ++ invites.Invites.map (fun invite => invite.get "email"))
    (checkInvitees E c.Session.TeamId invites.Invites 0
      { Err := c.Err,
        log := [Event.teamGet c.Session.TeamId, .userGet c.Session.UserId],
        world := (E.UserGet c.Session.UserId (E.TeamGet c.Session.TeamId w).2).2 }).2
  refine ⟨trivial, ?_, ?_, ?_⟩
  · rw [mailRecipients_append, hlog2, hlog, List.filter_append, hblank]
    simp [mailRecipients]
  · rw [herr2, herr]
  · simp

/-- Witness for C9: three invites, the second without an address, and a
mailer that fails every send. -/
theorem inviteMembers_sends_all_witness :
    (inviteMembers mailDownEnv demoContext "" 1700000000000).exit = .done ∧
    mailRecipients (inviteMembers mailDownEnv demoContext "" 1700000000000).log
      = ["x@y.com", "z@y.com"] ∧
    (inviteMembers mailDownEnv demoContext "" 1700000000000).Err = none ∧
    (inviteMembers mailDownEnv demoContext "" 1700000000000).log.getLast?
      = some (.write "invites") :=
  inviteMembers_sends_all mailDownEnv demoContext "" 1700000000000 threeInvites demoTeam
    demoUser rfl (by decide) rfl rfl (by decide)

end Properties

end Platform
